import Mathlib

/-!
# libnss-aad — shallow embedding and verification

A shallow embedding of the core of the `libnss-aad` NSS plugin
(`src/azure.rs`, `src/error.rs`, `src/lib.rs`) and proofs about it.

Modelling conventions:
* JSON response bodies are modelled by the inductive `Json` below (the code
  parses body text with serde into a `Value`; here successful `get_graph_info`
  calls carry an already-parsed `Json`, while `BadHTTPResponse` carries the raw
  body `String`, as in the code, so that the expired-page-token marker test on
  the raw text is faithful).
* The network is an oracle: a script `List GraphResp`, one entry per
  `get_graph_info` round trip, consumed in order.  Each operation also logs the
  URL it requested, so "no network activity" and "retries the same URL" are
  observable.
* C strings are byte lists (`List Nat`); `String` data is lowered with the
  UTF-8 encoder, so lengths and NUL-byte checks agree with Rust `CString`.
* Caller buffers are `List Nat` of bytes; struct `passwd`/`group` pointer
  fields become offsets into that buffer.  `libc::realloc` growth of the
  initgroups gid array is modelled at gid-entry granularity.
-/

/-- UTF-8 bytes of a string, as the Rust code sees `str::as_bytes`. -/
def strBytes (s : String) : List Nat :=
  (s.data.flatMap (fun c => String.utf8EncodeChar c)).map (fun b => b.toNat)

/-- Minimal JSON value model (serde_json `Value` as used by the code). -/
inductive Json where
  | null : Json
  | str : String → Json
  | num : Int → Json
  | arr : List Json → Json
  | obj : List (String × Json) → Json
  deriving Repr, Inhabited

/-- `value[key]` indexing of serde_json: missing key or non-object gives Null. -/
def Json.getField : Json → String → Json
  | .obj fs, k =>
    match fs.find? (fun p => p.1 == k) with
    | some p => p.2
    | none => .null
  | _, _ => .null

/-- `Value::as_str`. -/
def Json.asStr : Json → Option String
  | .str s => some s
  | _ => none

/-- `Value::as_array`. -/
def Json.asArr : Json → Option (List Json)
  | .arr xs => some xs
  | _ => none

/-- `Value::is_null`. -/
def Json.isNull : Json → Bool
  | .null => true
  | _ => false

/-- `error.rs` — `GraphInfoRetrievalError` (HTTP status codes as `Nat`,
`HTTPError`'s transport payload dropped). -/
inductive GraphInfoRetrievalError where
  | NoAccessToken (response : String)
  | BadHTTPResponse (status : Nat) (data : String)
  | BadJSONResponse
  | HTTPError
  | UnusableImmutableID
  | TooManyResults
  | NotFound
  deriving Repr, DecidableEq

/-- `error.rs` — `BufferFillError`. -/
inductive BufferFillError where
  | InsufficientBuffer
  | NullPointerError
  | ZeroByteInString
  deriving Repr, DecidableEq

/-- `lib.rs` — `UserInfo`. -/
structure UserInfo where
  username : String
  fullname : String
  userid : Nat
  deriving Repr, DecidableEq

/-- `lib.rs` — `GroupInfo`. -/
structure GroupInfo where
  groupname : String
  object_id : String
  group_id : Nat
  deriving Repr, DecidableEq

/-- `lib.rs` — `AadConfig`; the `group_ids` HashMap becomes an association
list (only lookups are performed on it). -/
structure AadConfig where
  client_id : String
  client_secret : String
  domain_sid : String
  default_user_group_id : Nat
  tenant : String
  group_ids : List (String × Nat)
  deriving Repr, DecidableEq

/-- HashMap `get` on the association-list model of `group_ids`. -/
def AadConfig.lookupGid (cfg : AadConfig) (name : String) : Option Nat :=
  match cfg.group_ids.find? (fun p => p.1 == name) with
  | some p => some p.2
  | none => none

/-- One `get_graph_info` round trip as scripted by the network oracle:
either a parsed JSON body, or a `GraphInfoRetrievalError` (with
`BadHTTPResponse` carrying the raw body text). -/
abbrev GraphResp : Type := Except GraphInfoRetrievalError Json

/-- Rust `str::split('-')` on the character list of a string. -/
def splitHyphen : List Char → List (List Char)
  | [] => [[]]
  | c :: rest =>
    let r := splitHyphen rest
    if c = '-' then [] :: r
    else
      match r with
      | [] => [[c]]
      | h :: t => (c :: h) :: t

/-- The final hyphen-delimited component (`sid_parts.pop().unwrap()`);
`splitHyphen` never returns `[]`, so the default is never used. -/
def lastSidPart (s : String) : List Char :=
  (splitHyphen s.data).getLastD []

def isDigitChar (c : Char) : Bool := '0' ≤ c && c ≤ '9'

def digitsToNat : List Nat → Nat :=
  List.foldl (fun acc d => acc * 10 + d) 0

/-- Rust `str::parse::<u32>()`: optional leading `+`, then one or more
decimal digits, value within `u32` range; anything else is a parse error. -/
def parseU32 (cs : List Char) : Option Nat :=
  let ds := match cs with
    | '+' :: rest => rest
    | other => other
  if ds.isEmpty then none
  else if ds.all isDigitChar then
    let n := digitsToNat (ds.map (fun c => c.toNat - 48))
    if n < 2 ^ 32 then some n else none
  else none

/-- `azure.rs` — `extract_user_info`: required string fields, RID derivation
from `onPremisesSecurityIdentifier`, and the `< 1000` usability rejection.
A `ParseIntError` converts to `UnusableImmutableID` (error.rs `From`). -/
def extract_user_info (userinfo : Json) : Except GraphInfoRetrievalError UserInfo := do
  let user_principal_name ←
    match (userinfo.getField "userPrincipalName").asStr with
    | some s => Except.ok s
    | none => Except.error .BadJSONResponse
  let user_display_name ←
    match (userinfo.getField "displayName").asStr with
    | some s => Except.ok s
    | none => Except.error .BadJSONResponse
  let sid ←
    match (userinfo.getField "onPremisesSecurityIdentifier").asStr with
    | some s => Except.ok s
    | none => Except.error .BadJSONResponse
  let user_id ←
    match parseU32 (lastSidPart sid) with
    | some n => Except.ok n
    | none => Except.error .UnusableImmutableID
  if user_id < 1000 then
    Except.error .UnusableImmutableID
  else
    Except.ok { username := user_principal_name, fullname := user_display_name, userid := user_id }

/-- `azure.rs` — `extract_group_info`: same shape, plus `objectId`. -/
def extract_group_info (group : Json) : Except GraphInfoRetrievalError GroupInfo := do
  let group_name ←
    match (group.getField "displayName").asStr with
    | some s => Except.ok s
    | none => Except.error .BadJSONResponse
  let object_id ←
    match (group.getField "objectId").asStr with
    | some s => Except.ok s
    | none => Except.error .BadJSONResponse
  let sid ←
    match (group.getField "onPremisesSecurityIdentifier").asStr with
    | some s => Except.ok s
    | none => Except.error .BadJSONResponse
  let group_id ←
    match parseU32 (lastSidPart sid) with
    | some n => Except.ok n
    | none => Except.error .UnusableImmutableID
  if group_id < 1000 then
    Except.error .UnusableImmutableID
  else
    Except.ok { groupname := group_name, object_id := object_id, group_id := group_id }

/-- Keep the `Ok` payloads of a list of results, in order (the effect of the
code's `filter_map` over per-record extraction results). -/
def collectOks {ε α : Type} : List (Except ε α) → List α
  | [] => []
  | .ok a :: rest => a :: collectOks rest
  | .error _ :: rest => collectOks rest

/-- `azure.rs` — `extract_group_members`: take the `value` array and silently
drop records whose extraction fails. -/
def extract_group_members (json : Json) : Except GraphInfoRetrievalError (List UserInfo) := do
  let values := json.getField "value"
  let members ←
    match values.asArr with
    | some a => Except.ok a
    | none => Except.error .BadJSONResponse
  Except.ok (collectOks (members.map extract_user_info))

/-- `azure.rs` — `extract_user_groups`: like `extract_group_members` but a
missing (`null`) `value` field is `NotFound`. -/
def extract_user_groups (json : Json) : Except GraphInfoRetrievalError (List GroupInfo) := do
  let values := json.getField "value"
  if values.isNull then
    Except.error .NotFound
  else
    let groups ←
      match values.asArr with
      | some a => Except.ok a
      | none => Except.error .BadJSONResponse
    Except.ok (collectOks (groups.map extract_group_info))

/-- `azure.rs` — `has_another_page`: the `odata.nextLink` continuation token. -/
def has_another_page (json : Json) : Except GraphInfoRetrievalError (Option String) :=
  let link := json.getField "odata.nextLink"
  if link.isNull then Except.ok none
  else
    match link.asStr with
    | some s => Except.ok (some s)
    | none => Except.error .BadJSONResponse

/-- `starts with` on character lists (helper for Rust `str::contains`). -/
def beginsWith : List Char → List Char → Bool
  | _, [] => true
  | [], _ :: _ => false
  | a :: as, b :: bs => a = b && beginsWith as bs

/-- Substring occurrence on character lists. -/
def containsSeq : List Char → List Char → Bool
  | [], pat => pat.isEmpty
  | h :: t, pat => beginsWith (h :: t) pat || containsSeq t pat

/-- Rust `str::contains(pat)` for a literal pattern. -/
def strContains (hay pat : String) : Bool :=
  containsSeq hay.data pat.data

/-- The literal expired-continuation-token marker tested by `get_user_groups`. -/
def expiredPageTokenMarker : String := "Directory_ExpiredPageToken"

/-- URL of the direct user lookup (`get_user_info`). -/
def userUrl (tenant username : String) : String :=
  "https://graph.windows.net/" ++ tenant ++ "/users/" ++ username ++ "?api-version=1.6"

/-- URL of the group-by-display-name filter query (`get_group_info`). -/
def groupByNameUrl (tenant groupname : String) : String :=
  "https://graph.windows.net/" ++ tenant ++ "/groups/?api-version=1.6&$filter=displayName+eq+'" ++
    groupname ++ "'"

/-- URL of the group-by-SID filter query (`get_group_info_by_sid`). -/
def groupBySidUrl (tenant sid : String) : String :=
  "https://graph.windows.net/" ++ tenant ++ "/groups?$filter=onPremisesSecurityIdentifier+eq+'" ++
    sid ++ "'&api-version=1.6"

/-- URL of the group-members listing (`get_group_members`). -/
def groupMembersUrl (tenant object_id : String) : String :=
  "https://graph.windows.net/" ++ tenant ++ "/groups/" ++ object_id ++ "/members?api-version=1.6"

/-- URL of the first page of a user's groups (`get_user_groups`). -/
def memberOfUrl (tenant username : String) : String :=
  "https://graph.windows.net/" ++ tenant ++ "/users/" ++ username ++ "/memberOf?api-version=1.6"

/-- URL built from a continuation link for the next page (`get_user_groups`). -/
def nextPageUrl (tenant link : String) : String :=
  "https://graph.windows.net/" ++ tenant ++ "/" ++ link ++ "&api-version=1.6"

/-- `azure.rs` — `get_graph_info`, over the network oracle: one round trip
(authenticate then GET `url`).  Consumes the next scripted response and logs
the URL; an exhausted script behaves as a transport failure (`HTTPError`). -/
def get_graph_info (script : List GraphResp) (url : String) :
    GraphResp × List GraphResp × List String :=
  match script with
  | [] => (Except.error .HTTPError, [], [url])
  | r :: rest => (r, rest, [url])

/-- `azure.rs` — `get_user_info`: one fetch, then `extract_user_info`.
Returns (result, remaining script, requested URLs). -/
def get_user_info (cfg : AadConfig) (script : List GraphResp) (username : String) :
    Except GraphInfoRetrievalError UserInfo × List GraphResp × List String :=
  let (resp, rest, log) := get_graph_info script (userUrl cfg.tenant username)
  match resp with
  | .error e => (.error e, rest, log)
  | .ok j => (extract_user_info j, rest, log)

/-- `azure.rs` — `get_group_info`: fetch by name filter, then the cardinality
checks (`> 1` ⇒ `TooManyResults`, `< 1` ⇒ `NotFound`), then extraction of the
single result. -/
def get_group_info (cfg : AadConfig) (script : List GraphResp) (groupname : String) :
    Except GraphInfoRetrievalError GroupInfo × List GraphResp × List String :=
  let (resp, rest, log) := get_graph_info script (groupByNameUrl cfg.tenant groupname)
  match resp with
  | .error e => (.error e, rest, log)
  | .ok j =>
    match (j.getField "value").asArr with
    | none => (.error .BadJSONResponse, rest, log)
    | some group_values =>
      if group_values.length > 1 then (.error .TooManyResults, rest, log)
      else if group_values.length < 1 then (.error .NotFound, rest, log)
      else (extract_group_info (group_values.headD .null), rest, log)

/-- `azure.rs` — `get_group_info_by_sid`: same cardinality rules, filtering by
the full security identifier. -/
def get_group_info_by_sid (cfg : AadConfig) (script : List GraphResp) (sid : String) :
    Except GraphInfoRetrievalError GroupInfo × List GraphResp × List String :=
  let (resp, rest, log) := get_graph_info script (groupBySidUrl cfg.tenant sid)
  match resp with
  | .error e => (.error e, rest, log)
  | .ok j =>
    match (j.getField "value").asArr with
    | none => (.error .BadJSONResponse, rest, log)
    | some groups =>
      if groups.length > 1 then (.error .TooManyResults, rest, log)
      else if groups.length < 1 then (.error .NotFound, rest, log)
      else (extract_group_info (groups.headD .null), rest, log)

/-- Modelled from the spec: `azure::get_user_info_by_sid` is called by
`_nss_aad_getpwuid_r` in `lib.rs` but its definition is not among the source
files.  Per the spec ("filter-by-security-identifier (group, user)" with the
same cardinality rules), it mirrors `get_group_info_by_sid` with user
extraction. -/
def get_user_info_by_sid (cfg : AadConfig) (script : List GraphResp) (sid : String) :
    Except GraphInfoRetrievalError UserInfo × List GraphResp × List String :=
  let (resp, rest, log) := get_graph_info script (groupBySidUrl cfg.tenant sid)
  match resp with
  | .error e => (.error e, rest, log)
  | .ok j =>
    match (j.getField "value").asArr with
    | none => (.error .BadJSONResponse, rest, log)
    | some users =>
      if users.length > 1 then (.error .TooManyResults, rest, log)
      else if users.length < 1 then (.error .NotFound, rest, log)
      else (extract_user_info (users.headD .null), rest, log)

/-- `azure.rs` — `get_group_members`: single fetch + `extract_group_members`. -/
def get_group_members (cfg : AadConfig) (script : List GraphResp) (object_id : String) :
    Except GraphInfoRetrievalError (List UserInfo) × List GraphResp × List String :=
  let (resp, rest, log) := get_graph_info script (groupMembersUrl cfg.tenant object_id)
  match resp with
  | .error e => (.error e, rest, log)
  | .ok j => (extract_group_members j, rest, log)

/-- The loop body of `azure.rs` `get_user_groups`.  One recursive step per
iteration; every iteration consumes one scripted response, so recursion is
structural in the script.  `retries` is the loop's retry budget (initially 5),
`acc` the accumulated `user_groups`. -/
def get_user_groups_loop (cfg : AadConfig) :
    List GraphResp → String → Nat → List GroupInfo →
    Except GraphInfoRetrievalError (List GroupInfo) × List GraphResp × List String
  | [], url, _, _ => (Except.error .HTTPError, [], [url])
  | r :: rest, url, retries, acc =>
    match r with
    | .error e =>
      match e with
      | .BadHTTPResponse status data =>
        if strContains data expiredPageTokenMarker && retries > 0 then
          let (res, rest2, log) := get_user_groups_loop cfg rest url (retries - 1) acc
          (res, rest2, url :: log)
        else
          (.error (.BadHTTPResponse status data), rest, [url])
      | _ => (.error e, rest, [url])
    | .ok j =>
      match extract_user_groups j with
      | .error e => (.error e, rest, [url])
      | .ok group_batch =>
        match has_another_page j with
        | .error e => (.error e, rest, [url])
        | .ok none => (.ok (acc ++ group_batch), rest, [url])
        | .ok (some link) =>
          let (res, rest2, log) :=
            get_user_groups_loop cfg rest (nextPageUrl cfg.tenant link) retries (acc ++ group_batch)
          (res, rest2, url :: log)

/-- `azure.rs` — `get_user_groups`: paginated fetch of the user's groups with
the expired-page-token retry protocol (5 retries). -/
def get_user_groups (cfg : AadConfig) (script : List GraphResp) (username : String) :
    Except GraphInfoRetrievalError (List GroupInfo) × List GraphResp × List String :=
  get_user_groups_loop cfg script (memberOfUrl cfg.tenant username) 5 []

/-! ## Buffer packing engine (`lib.rs`) -/

/-- `CString::new(..).into_bytes_with_nul()`: fails (`NulError`, converted to
`ZeroByteInString` by error.rs) when the bytes contain an embedded 0;
otherwise appends the terminator. -/
def cstrBytes (bs : List Nat) : Except BufferFillError (List Nat) :=
  if bs.contains 0 then Except.error .ZeroByteInString
  else Except.ok (bs ++ [0])

/-- `copy_nonoverlapping` of `data` into `buf` at byte offset `pos`. -/
def writeAt (buf : List Nat) (pos : Nat) (data : List Nat) : List Nat :=
  buf.take pos ++ data ++ buf.drop (pos + data.length)

/-- Read the C string stored at byte offset `pos` of `buf` (bytes up to the
first 0 terminator) — how the foreign caller dereferences a packed field. -/
def readCStr (buf : List Nat) (pos : Nat) : List Nat :=
  (buf.drop pos).takeWhile (fun b => b ≠ 0)

/-- The pointer fields of C `struct passwd`, as byte offsets into the
caller's buffer. -/
structure PasswdRec where
  pw_name : Nat
  pw_passwd : Nat
  pw_gecos : Nat
  pw_shell : Nat
  pw_dir : Nat
  deriving Repr, DecidableEq

/-- The fields of C `struct group`: `gr_name`/`gr_passwd` are byte offsets
into the caller's buffer; `gr_mem` is the separately `malloc`ed
null-terminated pointer array (`some off` = pointer into the buffer,
`none` = the final null pointer). -/
structure GroupRec where
  gr_name : Nat
  gr_passwd : Nat
  gr_gid : Nat
  gr_mem : List (Option Nat)
  deriving Repr, DecidableEq

/-- `lib.rs` — `fill_passwd_buf`.  `pwNull`/`bufNull` model the two pointer
arguments being null; `buffer` is the caller's region (its length is
`buflen`).  Returns the outcome together with the buffer after the call, so
frame effects are observable. -/
def fill_passwd_buf (pwNull bufNull : Bool) (buffer : List Nat)
    (username : String) (fullname : String) :
    Except BufferFillError PasswdRec × List Nat :=
  let buflen := buffer.length
  if pwNull || bufNull || buflen == 0 then
    (Except.error .NullPointerError, buffer)
  else
    match cstrBytes (strBytes username) with
    | .error e => (.error e, buffer)
    | .ok c_name =>
    match cstrBytes (strBytes ".") with
    | .error e => (.error e, buffer)
    | .ok c_passwd =>
    match cstrBytes (strBytes fullname) with
    | .error e => (.error e, buffer)
    | .ok c_gecos =>
    match cstrBytes (strBytes ("/home/" ++ username)) with
    | .error e => (.error e, buffer)
    | .ok c_dir =>
    match cstrBytes (strBytes "/bin/bash") with
    | .error e => (.error e, buffer)
    | .ok c_shell =>
    if buflen < c_name.length + c_passwd.length + c_gecos.length + c_dir.length + c_shell.length
    then
      (Except.error .InsufficientBuffer, buffer)
    else
      -- copies happen in source order: name, passwd, gecos, shell, dir
      let o_name := 0
      let b1 := writeAt buffer o_name c_name
      let o_passwd := o_name + c_name.length
      let b2 := writeAt b1 o_passwd c_passwd
      let o_gecos := o_passwd + c_passwd.length
      let b3 := writeAt b2 o_gecos c_gecos
      let o_shell := o_gecos + c_gecos.length
      let b4 := writeAt b3 o_shell c_shell
      let o_dir := o_shell + c_shell.length
      let b5 := writeAt b4 o_dir c_dir
      (Except.ok { pw_name := o_name, pw_passwd := o_passwd, pw_gecos := o_gecos,
                   pw_shell := o_shell, pw_dir := o_dir }, b5)

/-- Copy each member C string into the buffer in order, returning the list of
their offsets and the updated buffer (the member-copy loop of
`fill_group_buf`). -/
def copyMembers : List (List Nat) → List Nat → Nat → List Nat × List Nat
  | [], buf, _ => ([], buf)
  | m :: rest, buf, pos =>
    let buf2 := writeAt buf pos m
    let (offs, buf3) := copyMembers rest buf2 (pos + m.length)
    (pos :: offs, buf3)

/-- `lib.rs` — `fill_group_buf`.  Returns `none` when the code would panic
(`CString::new(member).unwrap()` on a member name with an embedded NUL);
otherwise the outcome plus the buffer after the call.  The member pointer
array is `malloc`ed outside the caller's buffer and so is not charged against
its capacity. -/
def fill_group_buf (buffer : List Nat) (gid : Nat) (name : String)
    (members : List UserInfo) :
    Option (Except BufferFillError GroupRec × List Nat) :=
  let buflen := buffer.length
  match cstrBytes (strBytes name) with
  | .error e => some (.error e, buffer)
  | .ok c_name =>
  match cstrBytes (strBytes "!") with
  | .error e => some (.error e, buffer)
  | .ok c_gpasswd =>
  -- CString::new(m.username).unwrap(): an embedded NUL in a member name panics
  if members.any (fun m => (strBytes m.username).contains 0) then none
  else
    let c_members := members.map (fun m => strBytes m.username ++ [0])
    let memberlen := (c_members.map (fun m => m.length)).sum
    if buflen < c_name.length + c_gpasswd.length + memberlen then
      some (Except.error .InsufficientBuffer, buffer)
    else
      let o_name := 0
      let b1 := writeAt buffer o_name c_name
      let o_passwd := o_name + c_name.length
      let b2 := writeAt b1 o_passwd c_gpasswd
      let (member_offs, b3) := copyMembers c_members b2 (o_passwd + c_gpasswd.length)
      some (Except.ok { gr_name := o_name, gr_passwd := o_passwd, gr_gid := gid,
                        gr_mem := member_offs.map some ++ [none] }, b3)

/-! ## Status translator and NSS entry points (`lib.rs`) -/

/-- `lib.rs` — `NssStatus` (returned as the i32 values -2, -1, 0, 1). -/
inductive NssStatus where
  | TryAgain
  | Unavailable
  | NotFound
  | Success
  deriving Repr, DecidableEq

/-- The i32 value cast from `NssStatus`. -/
def NssStatus.toInt : NssStatus → Int
  | .TryAgain => -2
  | .Unavailable => -1
  | .NotFound => 0
  | .Success => 1

/-- POSIX errno values used by the helpers (Linux). -/
def ENOENT : Nat := 2
def EAGAIN : Nat := 11
def ERANGE : Nat := 34

/-- An entry point's outward result: the status returned, and the errno
written through `errnop` (`none` = `*errnop` untouched). -/
structure NssRet where
  status : NssStatus
  errno : Option Nat
  deriving Repr, DecidableEq

/-- `lib.rs` — `nss_out_of_service`. -/
def nss_out_of_service : NssRet := ⟨.TryAgain, some EAGAIN⟩

/-- `lib.rs` — `nss_insufficient_buffer`. -/
def nss_insufficient_buffer : NssRet := ⟨.TryAgain, some ERANGE⟩

/-- `lib.rs` — `nss_input_file_err`. -/
def nss_input_file_err : NssRet := ⟨.Unavailable, some ENOENT⟩

/-- `lib.rs` — `nss_entry_not_available`. -/
def nss_entry_not_available : NssRet := ⟨.NotFound, some ENOENT⟩

/-- A successful return: `NssStatus::Success`, errno untouched. -/
def nss_success : NssRet := ⟨.Success, none⟩

/-- Outcome of a passwd entry point: status/errno, the `pw_uid`/`pw_gid` pair
written into the struct (written as soon as the fetch succeeds, even if
packing later fails), the packed string-field offsets on success, the buffer
after the call, and the URLs requested. -/
structure PwCallResult where
  ret : NssRet
  uidgid : Option (Nat × Nat)
  packed : Option PasswdRec
  buffer : List Nat
  requests : List String
  deriving Repr, DecidableEq

/-- The status mapping applied by `_nss_aad_getpwnam_r` to a failed
`get_user_info` (404 ⇒ not-found; any other error ⇒ out-of-service). -/
def pwnamFetchErrRet (e : GraphInfoRetrievalError) : NssRet :=
  match e with
  | .BadHTTPResponse status _ =>
    if status = 404 then nss_entry_not_available else nss_out_of_service
  | _ => nss_out_of_service

/-- `lib.rs` — `_nss_aad_getpwnam_r`.  `cfg?` is the result of reading
`/etc/nssaad.conf` (`none` = read/parse failure); `name?` is the decoded
name argument (`none` = invalid UTF-8); `script` is the network oracle. -/
def _nss_aad_getpwnam_r (cfg? : Option AadConfig) (script : List GraphResp)
    (name? : Option String) (buffer : List Nat) : PwCallResult :=
  match name? with
  | none => ⟨nss_entry_not_available, none, none, buffer, []⟩
  | some name =>
    match cfg? with
    | none => ⟨nss_input_file_err, none, none, buffer, []⟩
    | some cfg =>
      let (res, _, log) := get_user_info cfg script name
      match res with
      | .error e => ⟨pwnamFetchErrRet e, none, none, buffer, log⟩
      | .ok userinfo =>
        let ids := (userinfo.userid, cfg.default_user_group_id)
        let (fres, buf2) := fill_passwd_buf false false buffer userinfo.username userinfo.fullname
        match fres with
        | .ok rec => ⟨nss_success, some ids, some rec, buf2, log⟩
        | .error .ZeroByteInString => ⟨nss_entry_not_available, some ids, none, buf2, log⟩
        | .error _ => ⟨nss_insufficient_buffer, some ids, none, buf2, log⟩

/-- The status mapping applied by the uid/gid- and group-based entry points
to a failed fetch (404 or zero/many results ⇒ not-found; otherwise
out-of-service). -/
def sidFetchErrRet (e : GraphInfoRetrievalError) : NssRet :=
  match e with
  | .BadHTTPResponse status _ =>
    if status = 404 then nss_entry_not_available else nss_out_of_service
  | .TooManyResults => nss_entry_not_available
  | .NotFound => nss_entry_not_available
  | _ => nss_out_of_service

/-- `lib.rs` — `_nss_aad_getpwuid_r` (uses the spec-modelled
`get_user_info_by_sid`). -/
def _nss_aad_getpwuid_r (cfg? : Option AadConfig) (script : List GraphResp)
    (uid : Nat) (buffer : List Nat) : PwCallResult :=
  if uid < 1000 then ⟨nss_entry_not_available, none, none, buffer, []⟩
  else
    match cfg? with
    | none => ⟨nss_input_file_err, none, none, buffer, []⟩
    | some cfg =>
      let sid := cfg.domain_sid ++ "-" ++ toString uid
      let (res, _, log) := get_user_info_by_sid cfg script sid
      match res with
      | .error e => ⟨sidFetchErrRet e, none, none, buffer, log⟩
      | .ok userinfo =>
        let ids := (userinfo.userid, cfg.default_user_group_id)
        let (fres, buf2) := fill_passwd_buf false false buffer userinfo.username userinfo.fullname
        match fres with
        | .ok rec => ⟨nss_success, some ids, some rec, buf2, log⟩
        | .error .ZeroByteInString => ⟨nss_entry_not_available, some ids, none, buf2, log⟩
        | .error _ => ⟨nss_insufficient_buffer, some ids, none, buf2, log⟩

/-- Outcome of a group entry point (fields as in `PwCallResult`). -/
structure GrCallResult where
  ret : NssRet
  packed : Option GroupRec
  buffer : List Nat
  requests : List String
  deriving Repr, DecidableEq

/-- `lib.rs` — `_nss_aad_getgrnam_r`.  `none` models the member-name
`CString::new(..).unwrap()` panic inside `fill_group_buf`. -/
def _nss_aad_getgrnam_r (cfg? : Option AadConfig) (script : List GraphResp)
    (name? : Option String) (buffer : List Nat) : Option GrCallResult :=
  match name? with
  | none => some ⟨nss_entry_not_available, none, buffer, []⟩
  | some name =>
    match cfg? with
    | none => some ⟨nss_input_file_err, none, buffer, []⟩
    | some cfg =>
      let (gres, rest, log1) := get_group_info cfg script name
      match gres with
      | .error e => some ⟨sidFetchErrRet e, none, buffer, log1⟩
      | .ok groupinfo =>
        let (mres, _, log2) := get_group_members cfg rest groupinfo.object_id
        let groupmembers := match mres with
          | .ok m => m
          | .error _ => []
        match fill_group_buf buffer groupinfo.group_id name groupmembers with
        | none => none
        | some (.ok rec, buf2) => some ⟨nss_success, some rec, buf2, log1 ++ log2⟩
        | some (.error .InsufficientBuffer, buf2) =>
          some ⟨nss_insufficient_buffer, none, buf2, log1 ++ log2⟩
        | some (.error _, buf2) => some ⟨nss_entry_not_available, none, buf2, log1 ++ log2⟩

/-- `lib.rs` — `_nss_aad_getgrgid_r`. -/
def _nss_aad_getgrgid_r (cfg? : Option AadConfig) (script : List GraphResp)
    (gid : Nat) (buffer : List Nat) : Option GrCallResult :=
  if gid < 1000 then some ⟨nss_entry_not_available, none, buffer, []⟩
  else
    match cfg? with
    | none => some ⟨nss_input_file_err, none, buffer, []⟩
    | some cfg =>
      let sid := cfg.domain_sid ++ "-" ++ toString gid
      let (gres, rest, log1) := get_group_info_by_sid cfg script sid
      match gres with
      | .error e => some ⟨sidFetchErrRet e, none, buffer, log1⟩
      | .ok groupinfo =>
        let (mres, _, log2) := get_group_members cfg rest groupinfo.object_id
        let groupmembers := match mres with
          | .ok m => m
          | .error _ => []
        match fill_group_buf buffer gid groupinfo.groupname groupmembers with
        | none => none
        | some (.ok rec, buf2) => some ⟨nss_success, some rec, buf2, log1 ++ log2⟩
        | some (.error .InsufficientBuffer, buf2) =>
          some ⟨nss_insufficient_buffer, none, buf2, log1 ++ log2⟩
        | some (.error _, buf2) => some ⟨nss_entry_not_available, none, buf2, log1 ++ log2⟩

/-- `libc::realloc` of the gid array to `newSz` entries: the common prefix is
preserved, any new entries are uninitialized (modelled as 0). -/
def reallocGids (arr : List Nat) (newSz : Nat) : List Nat :=
  arr.take newSz ++ List.replicate (newSz - arr.length) 0

/-- The gid-copy loop of `_nss_aad_initgroups_dyn`: write each gid at `idx`,
increment, and break once `idx` reaches `limit`; `none` models the panic of
an out-of-bounds slice write. -/
def writeGidsLoop : List Nat → Nat → List Nat → Nat → Option (List Nat × Nat)
  | arr, idx, [], _ => some (arr, idx)
  | arr, idx, g :: rest, limit =>
    if idx < arr.length then
      let arr2 := arr.set idx g
      if idx + 1 = limit then some (arr2, idx + 1)
      else writeGidsLoop arr2 (idx + 1) rest limit
    else none

/-- Outcome of `_nss_aad_initgroups_dyn`: status/errno, the returned fill
position `*start`, the gid array (`*groupsp`, whose length is the returned
`*size`), and the URLs requested. -/
structure InitgroupsResult where
  ret : NssRet
  start : Nat
  groups : List Nat
  requests : List String
  deriving Repr, DecidableEq

/-- `lib.rs` — `_nss_aad_initgroups_dyn`.  `grouparr` is the caller's gid
array (its length is `*size`), `start` the fill position, `limit` the hard
ceiling.  `none` models an out-of-bounds write panic. -/
def _nss_aad_initgroups_dyn (cfg? : Option AadConfig) (script : List GraphResp)
    (name? : Option String) (skipgroup : Nat) (start : Nat) (grouparr : List Nat)
    (limit : Nat) : Option InitgroupsResult :=
  match name? with
  | none => some ⟨nss_entry_not_available, start, grouparr, []⟩
  | some name =>
    match cfg? with
    | none => some ⟨nss_input_file_err, start, grouparr, []⟩
    | some cfg =>
      let (gres, _, log) := get_user_groups cfg script name
      match gres with
      | .error _ => some ⟨nss_entry_not_available, start, grouparr, log⟩
      | .ok v =>
        let user_groups :=
          (v.filterMap (fun g => cfg.lookupGid g.groupname)).filter (fun gid => gid ≠ skipgroup)
        if user_groups.isEmpty then some ⟨nss_success, start, grouparr, log⟩
        else
          let idx := start
          let arr :=
            if idx + user_groups.length > grouparr.length then
              reallocGids grouparr (min (idx + user_groups.length) limit)
            else grouparr
          match writeGidsLoop arr idx user_groups limit with
          | none => none
          | some (arr2, idx2) => some ⟨nss_success, idx2, arr2, log⟩

/-! ## Helper lemmas -/

theorem writeAt_append (p data rest : List Nat) :
    writeAt (p ++ rest) p.length data = p ++ (data ++ rest.drop data.length) := by
  unfold writeAt
  rw [List.take_left, List.drop_append, List.append_assoc]

theorem writeAt_zero (buf data : List Nat) :
    writeAt buf 0 data = data ++ buf.drop data.length := by
  unfold writeAt
  simp

theorem takeWhileNe_append (A B : List Nat) (h : 0 ∈ A) :
    (A ++ B).takeWhile (fun b => b ≠ 0) = A.takeWhile (fun b => b ≠ 0) := by
  induction A with
  | nil => simp at h
  | cons a t ih =>
    by_cases ha : a = 0
    · subst ha
      simp [List.takeWhile_cons]
    · have ht : 0 ∈ t := by
        rcases List.mem_cons.mp h with h' | h'
        · exact absurd h'.symm ha
        · exact h'
      have ih' := ih ht
      simp only [ne_eq, decide_not] at ih'
      simp [List.takeWhile_cons, ha, ih']

theorem strBytes_append (a b : String) : strBytes (a ++ b) = strBytes a ++ strBytes b := by
  unfold strBytes
  rw [String.data_append]
  simp

/-- The exact byte total `fill_passwd_buf` compares against the capacity:
each of the five packed C strings, terminator included. -/
def passwdRequiredLen (username fullname : String) : Nat :=
  ((strBytes username).length + 1) + 2 + ((strBytes fullname).length + 1) +
    ((strBytes ("/home/" ++ username)).length + 1) + 10

/-- The exact byte total `fill_group_buf` compares against the capacity:
name and password C strings plus every member-name C string. -/
def groupRequiredLen (name : String) (members : List UserInfo) : Nat :=
  ((strBytes name).length + 1) + 2 +
    (members.map (fun m => (strBytes m.username).length + 1)).sum

theorem fill_passwd_buf_insufficient (buffer : List Nat) (username fullname : String)
    (hbuf : buffer ≠ [])
    (hu : 0 ∉ strBytes username)
    (hf : 0 ∉ strBytes fullname)
    (hcap : buffer.length < passwdRequiredLen username fullname) :
    fill_passwd_buf false false buffer username fullname =
      (Except.error BufferFillError.InsufficientBuffer, buffer) := by
  have hne : (buffer.length == 0) = false := by
    simp only [beq_eq_false_iff_ne, ne_eq]
    intro h0
    exact hbuf (List.length_eq_zero.mp h0)
  have hd : 0 ∉ strBytes ("/home/" ++ username) := by
    rw [strBytes_append]
    intro h
    rcases List.mem_append.mp h with h' | h'
    · revert h'
      decide
    · exact hu h'
  have h1 : cstrBytes (strBytes username) = Except.ok (strBytes username ++ [0]) := by
    simp [cstrBytes, hu]
  have h2 : cstrBytes (strBytes ".") = Except.ok (strBytes "." ++ [0]) := rfl
  have h3 : cstrBytes (strBytes fullname) = Except.ok (strBytes fullname ++ [0]) := by
    simp [cstrBytes, hf]
  have h4 : cstrBytes (strBytes ("/home/" ++ username)) =
      Except.ok (strBytes ("/home/" ++ username) ++ [0]) := by
    simp [cstrBytes, hd]
  have h5 : cstrBytes (strBytes "/bin/bash") = Except.ok (strBytes "/bin/bash" ++ [0]) := rfl
  have hlt : buffer.length < (strBytes username ++ [0]).length + (strBytes "." ++ [0]).length +
      (strBytes fullname ++ [0]).length + (strBytes ("/home/" ++ username) ++ [0]).length +
      (strBytes "/bin/bash" ++ [0]).length := by
    simp only [List.length_append, List.length_cons, List.length_nil]
    simp only [passwdRequiredLen] at hcap
    have e1 : (strBytes ".").length = 1 := rfl
    have e2 : (strBytes "/bin/bash").length = 9 := rfl
    omega
  simp only [fill_passwd_buf]
  rw [hne, h1, h2, h3, h4, h5]
  simp only [Bool.or_false, Bool.false_or, if_false]
  rw [if_pos hlt]
  rfl

theorem fill_group_buf_insufficient (buffer : List Nat) (gid : Nat) (name : String)
    (members : List UserInfo)
    (hn : 0 ∉ strBytes name)
    (hm : ∀ m ∈ members, 0 ∉ strBytes m.username)
    (hcap : buffer.length < groupRequiredLen name members) :
    fill_group_buf buffer gid name members =
      some (Except.error BufferFillError.InsufficientBuffer, buffer) := by
  have h1 : cstrBytes (strBytes name) = Except.ok (strBytes name ++ [0]) := by
    simp [cstrBytes, hn]
  have h2 : cstrBytes (strBytes "!") = Except.ok (strBytes "!" ++ [0]) := rfl
  have hany : (members.any (fun m => (strBytes m.username).contains 0)) = false := by
    rw [List.any_eq_false]
    intro m hmem
    simpa using hm m hmem
  have hlt : buffer.length < (strBytes name ++ [0]).length + (strBytes "!" ++ [0]).length +
      ((members.map (fun m => strBytes m.username ++ [0])).map (fun m => m.length)).sum := by
    have e : ((members.map (fun m => strBytes m.username ++ [0])).map
        (fun m => m.length)).sum = (members.map (fun m => (strBytes m.username).length + 1)).sum := by
      rw [List.map_map]
      congr 1
      apply List.map_congr_left
      intro m _
      simp
    rw [e]
    simp only [List.length_append, List.length_cons, List.length_nil]
    simp only [groupRequiredLen] at hcap
    have e2 : (strBytes "!").length = 1 := rfl
    omega
  simp only [fill_group_buf]
  rw [h1, h2, hany]
  simp only [if_false]
  rw [if_pos hlt]
  rfl

theorem fill_group_buf_emptyMembers (buffer : List Nat) (gid : Nat) (name : String)
    (hn : 0 ∉ strBytes name)
    (hcap : (strBytes name).length + 3 ≤ buffer.length) :
    fill_group_buf buffer gid name [] =
      some (Except.ok { gr_name := 0, gr_passwd := (strBytes name).length + 1, gr_gid := gid,
                        gr_mem := [none] },
        (strBytes name ++ [0]) ++
          ((strBytes "!" ++ [0]) ++ (buffer.drop ((strBytes name).length + 1)).drop 2)) := by
  have h1 : cstrBytes (strBytes name) = Except.ok (strBytes name ++ [0]) := by
    simp [cstrBytes, hn]
  have h2 : cstrBytes (strBytes "!") = Except.ok (strBytes "!" ++ [0]) := rfl
  have hge : ¬ (buffer.length < (strBytes name ++ [0]).length + (strBytes "!" ++ [0]).length) := by
    simp only [List.length_append, List.length_cons, List.length_nil]
    have e2 : (strBytes "!").length = 1 := rfl
    omega
  simp only [fill_group_buf]
  rw [h1, h2]
  simp only [List.any_nil, List.map_nil, List.sum_nil, Nat.add_zero, Bool.false_eq_true, if_false]
  rw [if_neg hge]
  rw [writeAt_zero, Nat.zero_add, writeAt_append]
  simp [copyMembers, List.length_append, show (strBytes "!").length = 1 from rfl]

theorem loop_log_head (cfg : AadConfig) (script : List GraphResp) (url : String)
    (r : Nat) (acc : List GroupInfo) :
    (get_user_groups_loop cfg script url r acc).2.2.head? = some url := by
  cases script with
  | nil => rfl
  | cons x rest =>
    cases x with
    | error e =>
      cases e <;> try rfl
      case BadHTTPResponse status data =>
        simp only [get_user_groups_loop]
        split <;> rfl
    | ok j =>
      simp only [get_user_groups_loop]
      cases hx : extract_user_groups j with
      | error e => rfl
      | ok gb =>
        cases hp : has_another_page j with
        | error e => rfl
        | ok link =>
          cases link with
          | none => rfl
          | some l => rfl

theorem loop_retry_succeeds (cfg : AadConfig) (status : Nat) (data url : String)
    (hmk : strContains data expiredPageTokenMarker = true)
    (p : Json) (gs : List GroupInfo)
    (hp : extract_user_groups p = Except.ok gs)
    (hnp : has_another_page p = Except.ok none) :
    ∀ (j r : Nat) (acc : List GroupInfo), j ≤ r →
      get_user_groups_loop cfg
          (List.replicate j (Except.error (.BadHTTPResponse status data)) ++ [Except.ok p])
          url r acc
        = (Except.ok (acc ++ gs), [], List.replicate (j + 1) url) := by
  intro j
  induction j with
  | zero =>
    intro r acc _
    simp only [List.replicate, List.nil_append, get_user_groups_loop, hp, hnp]
  | succ n ih =>
    intro r acc hle
    obtain ⟨r', rfl⟩ : ∃ r', r = r' + 1 := ⟨r - 1, by omega⟩
    simp only [List.replicate, List.cons_append, get_user_groups_loop, hmk]
    simp only [Nat.add_sub_cancel, List.append_eq]
    have hcond : (true && decide (r' + 1 > 0)) = true := by simp
    rw [hcond, if_pos rfl, ih r' acc (by omega)]
    simp [List.replicate]

theorem loop_retries_exhausted (cfg : AadConfig) (status : Nat) (data url : String)
    (hmk : strContains data expiredPageTokenMarker = true) :
    ∀ (r : Nat) (rest : List GraphResp) (acc : List GroupInfo),
      get_user_groups_loop cfg
          (List.replicate (r + 1) (Except.error (.BadHTTPResponse status data)) ++ rest)
          url r acc
        = (Except.error (.BadHTTPResponse status data), rest, List.replicate (r + 1) url) := by
  intro r
  induction r with
  | zero =>
    intro rest acc
    simp only [List.replicate, List.nil_append, get_user_groups_loop, hmk]
    simp
  | succ n ih =>
    intro rest acc
    have IH := ih rest acc
    rw [List.replicate_succ, List.cons_append]
    generalize hT : List.replicate (n + 1)
        (Except.error (GraphInfoRetrievalError.BadHTTPResponse status data) : GraphResp) ++ rest
      = T
    rw [hT] at IH
    simp only [get_user_groups_loop, hmk]
    have hcond : (true && decide (n + 1 > 0)) = true := by simp
    rw [hcond, if_pos rfl, Nat.add_sub_cancel, IH]
    simp [List.replicate_succ]

theorem loop_no_marker (cfg : AadConfig) (status : Nat) (data url : String)
    (rest : List GraphResp) (r : Nat) (acc : List GroupInfo)
    (hmk : strContains data expiredPageTokenMarker = false) :
    get_user_groups_loop cfg (Except.error (.BadHTTPResponse status data) :: rest) url r acc
      = (Except.error (.BadHTTPResponse status data), rest, [url]) := by
  simp only [get_user_groups_loop, hmk]
  simp

theorem loop_pages (cfg : AadConfig) (lastPage : Json) (lastBatch : List GroupInfo)
    (hlast : extract_user_groups lastPage = Except.ok lastBatch)
    (hnolink : has_another_page lastPage = Except.ok none) :
    ∀ (pages : List (Json × List GroupInfo × String)),
      (∀ x ∈ pages, extract_user_groups x.1 = Except.ok x.2.1 ∧
          has_another_page x.1 = Except.ok (some x.2.2)) →
      ∀ (url : String) (r : Nat) (acc : List GroupInfo),
        get_user_groups_loop cfg
            ((pages.map (fun x => Except.ok x.1)) ++ [Except.ok lastPage]) url r acc
          = (Except.ok (acc ++ (pages.map (fun x => x.2.1)).flatten ++ lastBatch), [],
             url :: pages.map (fun x => nextPageUrl cfg.tenant x.2.2)) := by
  intro pages
  induction pages with
  | nil =>
    intro _ url r acc
    simp only [List.map_nil, List.nil_append, get_user_groups_loop, hlast, hnolink]
    simp
  | cons x ps ih =>
    intro hall url r acc
    obtain ⟨hx, hlink⟩ := hall x (List.mem_cons_self x ps)
    have hrest := fun y hy => hall y (List.mem_cons_of_mem x hy)
    simp only [List.map_cons, List.cons_append, get_user_groups_loop, hx, hlink]
    simp only [List.append_eq]
    rw [ih hrest (nextPageUrl cfg.tenant x.2.2) r (acc ++ x.2.1)]
    simp [List.append_assoc]

theorem writeGidsLoop_spec : ∀ (q arr : List Nat) (idx limit : Nat),
    idx ≤ arr.length → arr.length = min (idx + q.length) limit → (q = [] ∨ idx < limit) →
    writeGidsLoop arr idx q limit =
      some (arr.take idx ++ q.take (arr.length - idx), arr.length) := by
  intro q
  induction q with
  | nil =>
    intro arr idx limit hle hlen _
    have hL : arr.length = idx := by
      simp only [List.length_nil, Nat.add_zero] at hlen
      omega
    simp [writeGidsLoop, hL, List.take_of_length_le]
  | cons g rest ih =>
    intro arr idx limit hle hlen hcond
    have hidx : idx < arr.length := by
      rcases hcond with h | h
      · exact absurd h (by simp)
      · simp only [List.length_cons] at hlen
        omega
    have hset : arr.set idx g = arr.take idx ++ g :: arr.drop (idx + 1) := by
      rw [List.set_eq_take_append_cons_drop, if_pos hidx]
    simp only [writeGidsLoop, if_pos hidx]
    by_cases hl : idx + 1 = limit
    · rw [if_pos hl]
      have hL : arr.length = idx + 1 := by
        simp only [List.length_cons] at hlen
        omega
      have hdrop : arr.drop (idx + 1) = [] := List.drop_of_length_le (by omega)
      have htake : (g :: rest).take (arr.length - idx) = [g] := by
        rw [hL]
        simp
      rw [htake, hL, hset, hdrop]
    · rw [if_neg hl]
      have hlt : idx + 1 < limit := by
        have : idx < limit := by
          simp only [List.length_cons] at hlen
          omega
        omega
      have hlen2 : (arr.set idx g).length = min ((idx + 1) + rest.length) limit := by
        rw [List.length_set]
        simp only [List.length_cons] at hlen
        omega
      rw [ih (arr.set idx g) (idx + 1) limit (by rw [List.length_set]; omega) hlen2 (Or.inr hlt)]
      have hLs : (arr.set idx g).length = arr.length := List.length_set arr idx g
      have hA : (arr.take idx).length = idx := by
        rw [List.length_take]
        omega
      have htk : (arr.set idx g).take (idx + 1) = arr.take idx ++ [g] := by
        rw [hset]
        calc (arr.take idx ++ g :: arr.drop (idx + 1)).take (idx + 1)
            = (arr.take idx ++ g :: arr.drop (idx + 1)).take ((arr.take idx).length + 1) := by
              rw [hA]
          _ = arr.take idx ++ (g :: arr.drop (idx + 1)).take 1 := List.take_append 1
          _ = arr.take idx ++ [g] := by simp
      rw [hLs, htk]
      have hk : arr.length - idx = (arr.length - (idx + 1)) + 1 := by omega
      rw [hk]
      simp [List.take_succ_cons, List.append_assoc]

theorem collectOks_append {ε α : Type} (xs ys : List (Except ε α)) :
    collectOks (xs ++ ys) = collectOks xs ++ collectOks ys := by
  induction xs with
  | nil => rfl
  | cons x t ih => cases x <;> simp [collectOks, ih]

/-! ## Concrete fixtures for witnesses and counterexamples -/

/-- An example configuration record. -/
def cfgEx : AadConfig :=
  { client_id := "cid", client_secret := "csec", domain_sid := "S-1-5-21-1-2-3",
    default_user_group_id := 1000, tenant := "ten",
    group_ids := [("g1", 5001), ("g2", 5002), ("g3", 5003), ("g4", 5004), ("g5", 5005)] }

/-- A well-formed directory user object whose SID ends in RID 500 (< 1000). -/
def builtinUserJson : Json :=
  Json.obj [("userPrincipalName", Json.str "bob"), ("displayName", Json.str "Bob B"),
            ("onPremisesSecurityIdentifier", Json.str "S-1-5-21-1-2-3-500")]

/-- A well-formed directory group object with the given name, object id and RID suffix. -/
def groupJsonEx (name oid sid : String) : Json :=
  Json.obj [("displayName", Json.str name), ("objectId", Json.str oid),
            ("onPremisesSecurityIdentifier", Json.str sid)]

/-! ## Claim theorems -/

/-- C1, counterexample: a getpwnam lookup whose fetched record fails the
numeric-id usability invariant (RID 500 < 1000, i.e. `UnusableImmutableID`)
returns the Try-again status with errno EAGAIN — not the claimed Not-found
status with errno ENOENT. -/
theorem C1_counterexample :
    extract_user_info builtinUserJson = Except.error GraphInfoRetrievalError.UnusableImmutableID ∧
    (_nss_aad_getpwnam_r (some cfgEx) [Except.ok builtinUserJson] (some "bob")
        (List.replicate 50 7)).ret = { status := NssStatus.TryAgain, errno := some EAGAIN } ∧
    ({ status := NssStatus.TryAgain, errno := some EAGAIN } : NssRet) ≠
      { status := NssStatus.NotFound, errno := some ENOENT } :=
  ⟨rfl, rfl, by decide⟩

/-- C1, amended: for every top-level getpwnam lookup in which the fetched
directory record's derived numeric id fails the usability invariant (the
fetch returns `UnusableImmutableID`), the entry point returns the Try-again
status with errno EAGAIN (the unusable-id error is not distinguished from
other service failures by `_nss_aad_getpwnam_r`). -/
theorem C1_unusable_id_yields_tryagain (cfg : AadConfig) (j : Json) (rest : List GraphResp)
    (name : String) (buffer : List Nat)
    (hx : extract_user_info j = Except.error GraphInfoRetrievalError.UnusableImmutableID) :
    (_nss_aad_getpwnam_r (some cfg) (Except.ok j :: rest) (some name) buffer).ret
      = { status := NssStatus.TryAgain, errno := some EAGAIN } := by
  simp only [_nss_aad_getpwnam_r, get_user_info, get_graph_info, hx]
  rfl

/-- C1, witness: the amended theorem applied at the RID-500 record. -/
theorem C1_witness :
    (_nss_aad_getpwnam_r (some cfgEx) [Except.ok builtinUserJson] (some "bob")
        (List.replicate 50 7)).ret = { status := NssStatus.TryAgain, errno := some EAGAIN } :=
  C1_unusable_id_yields_tryagain cfgEx builtinUserJson [] "bob" (List.replicate 50 7) rfl

/-- C2, counterexample: with a zero-length buffer the required length (38
bytes for the alice record) exceeds the capacity (0), yet `fill_passwd_buf`
fails with `NullPointerError`, not the claimed `InsufficientBuffer` (its
zero-capacity guard fires first). -/
theorem C2_counterexample :
    ([] : List Nat).length < passwdRequiredLen "alice" "Alice A" ∧
    fill_passwd_buf false false [] "alice" "Alice A" =
      (Except.error BufferFillError.NullPointerError, []) ∧
    BufferFillError.NullPointerError ≠ BufferFillError.InsufficientBuffer :=
  ⟨by decide, rfl, by decide⟩

/-- C2, amended: for every buffer-packing call whose fields contain no
embedded NUL byte, if the exact required byte length (each field's length
plus one terminator each; for groups also the member-name C strings) exceeds
the supplied capacity, the call fails with `InsufficientBuffer` and the
buffer is byte-for-byte unchanged — except that `fill_passwd_buf` rejects a
zero-length buffer up front as `NullPointerError` (also without touching
it). -/
theorem C2_insufficient_buffer_atomic :
    (∀ (buffer : List Nat) (username fullname : String),
        buffer ≠ [] → 0 ∉ strBytes username → 0 ∉ strBytes fullname →
        buffer.length < passwdRequiredLen username fullname →
        fill_passwd_buf false false buffer username fullname =
          (Except.error BufferFillError.InsufficientBuffer, buffer)) ∧
    (∀ (buffer : List Nat) (gid : Nat) (name : String) (members : List UserInfo),
        0 ∉ strBytes name → (∀ m ∈ members, 0 ∉ strBytes m.username) →
        buffer.length < groupRequiredLen name members →
        fill_group_buf buffer gid name members =
          some (Except.error BufferFillError.InsufficientBuffer, buffer)) ∧
    (∀ (username fullname : String),
        fill_passwd_buf false false [] username fullname =
          (Except.error BufferFillError.NullPointerError, [])) :=
  ⟨fill_passwd_buf_insufficient, fill_group_buf_insufficient, fun _ _ => rfl⟩

/-- C2, witness: the amended theorem applied at a 10-byte buffer for the
alice passwd record, a 3-byte buffer for a one-member group record, and the
zero-length buffer. -/
theorem C2_witness :
    fill_passwd_buf false false (List.replicate 10 7) "alice" "Alice A" =
      (Except.error BufferFillError.InsufficientBuffer, List.replicate 10 7) ∧
    fill_group_buf (List.replicate 3 7) 5001 "g1"
        [{ username := "bob", fullname := "Bob B", userid := 1001 }] =
      some (Except.error BufferFillError.InsufficientBuffer, List.replicate 3 7) ∧
    fill_passwd_buf false false [] "u" "f" =
      (Except.error BufferFillError.NullPointerError, []) := by
  refine ⟨C2_insufficient_buffer_atomic.1 _ _ _ (by decide) (by decide) (by decide) (by decide),
          C2_insufficient_buffer_atomic.2.1 _ _ _ _ (by decide) ?_ (by decide),
          C2_insufficient_buffer_atomic.2.2 "u" "f"⟩
  intro m hm
  simp only [List.mem_singleton] at hm
  subst hm
  decide

/-- C9: for every entry point, a failed configuration read yields the
Unavailable status with errno ENOENT, with no directory request issued (the
request log is empty) and the caller's buffers untouched.  The uid/gid
entry points are taken past their built-in `< 1000` pre-check, and the
name-based ones past name decoding, so that the configuration read is
actually reached. -/
theorem C9_config_failure_short_circuits (script : List GraphResp) (name : String)
    (buffer : List Nat) (uid gid skipgroup start limit : Nat) (arr : List Nat)
    (huid : 1000 ≤ uid) (hgid : 1000 ≤ gid) :
    _nss_aad_getpwnam_r none script (some name) buffer =
      { ret := nss_input_file_err, uidgid := none, packed := none,
        buffer := buffer, requests := [] } ∧
    _nss_aad_getpwuid_r none script uid buffer =
      { ret := nss_input_file_err, uidgid := none, packed := none,
        buffer := buffer, requests := [] } ∧
    _nss_aad_getgrnam_r none script (some name) buffer =
      some { ret := nss_input_file_err, packed := none, buffer := buffer, requests := [] } ∧
    _nss_aad_getgrgid_r none script gid buffer =
      some { ret := nss_input_file_err, packed := none, buffer := buffer, requests := [] } ∧
    _nss_aad_initgroups_dyn none script (some name) skipgroup start arr limit =
      some { ret := nss_input_file_err, start := start, groups := arr, requests := [] } ∧
    nss_input_file_err = { status := NssStatus.Unavailable, errno := some ENOENT } := by
  refine ⟨rfl, ?_, rfl, ?_, rfl, rfl⟩
  · simp only [_nss_aad_getpwuid_r]
    rw [if_neg (by omega)]
  · simp only [_nss_aad_getgrgid_r]
    rw [if_neg (by omega)]

/-- C9, witness: the theorem applied at uid = gid = 1000 with concrete
arguments. -/
theorem C9_witness :
    _nss_aad_getpwnam_r none [] (some "u") [7] =
      { ret := nss_input_file_err, uidgid := none, packed := none,
        buffer := [7], requests := [] } ∧
    _nss_aad_getpwuid_r none [] 1000 [7] =
      { ret := nss_input_file_err, uidgid := none, packed := none,
        buffer := [7], requests := [] } ∧
    _nss_aad_getgrnam_r none [] (some "u") [7] =
      some { ret := nss_input_file_err, packed := none, buffer := [7], requests := [] } ∧
    _nss_aad_getgrgid_r none [] 1000 [7] =
      some { ret := nss_input_file_err, packed := none, buffer := [7], requests := [] } ∧
    _nss_aad_initgroups_dyn none [] (some "u") 0 2 [9, 9] 3 =
      some { ret := nss_input_file_err, start := 2, groups := [9, 9], requests := [] } ∧
    nss_input_file_err = { status := NssStatus.Unavailable, errno := some ENOENT } :=
  C9_config_failure_short_circuits [] "u" [7] 1000 1000 0 2 3 [9, 9]
    (by decide) (by decide)

/-- C3: the retry protocol of `get_user_groups`.  (1) On an HTTP failure whose
body contains the expired-page-token marker, the same URL is requested again
(the first two logged requests are the same member-of URL).  (2) For j ≤ 5
expired-token responses followed by a success, the call returns the
successful response's data after j retries (so a success on a retry costs
exactly one of the 5 credits).  (3) Six consecutive expired-token responses
exhaust the budget: the call fails after the 5th retry, having issued
exactly 6 requests.  (4) An HTTP failure without the marker propagates
immediately with a single request.  (5) No other operation retries: each
single-shot operation issues exactly one request. -/
theorem C3_retry_protocol :
    (∀ (cfg : AadConfig) (name : String) (status : Nat) (data : String) (rest : List GraphResp),
        strContains data expiredPageTokenMarker = true →
        ∃ t, (get_user_groups cfg
            (Except.error (.BadHTTPResponse status data) :: rest) name).2.2
          = memberOfUrl cfg.tenant name :: memberOfUrl cfg.tenant name :: t) ∧
    (∀ (cfg : AadConfig) (name : String) (status : Nat) (data : String) (p : Json)
        (gs : List GroupInfo) (j : Nat), j ≤ 5 →
        strContains data expiredPageTokenMarker = true →
        extract_user_groups p = Except.ok gs → has_another_page p = Except.ok none →
        get_user_groups cfg
            (List.replicate j (Except.error (.BadHTTPResponse status data)) ++ [Except.ok p]) name
          = (Except.ok gs, [], List.replicate (j + 1) (memberOfUrl cfg.tenant name))) ∧
    (∀ (cfg : AadConfig) (name : String) (status : Nat) (data : String) (rest : List GraphResp),
        strContains data expiredPageTokenMarker = true →
        get_user_groups cfg
            (List.replicate 6 (Except.error (.BadHTTPResponse status data)) ++ rest) name
          = (Except.error (.BadHTTPResponse status data), rest,
             List.replicate 6 (memberOfUrl cfg.tenant name))) ∧
    (∀ (cfg : AadConfig) (name : String) (status : Nat) (data : String) (rest : List GraphResp),
        strContains data expiredPageTokenMarker = false →
        get_user_groups cfg (Except.error (.BadHTTPResponse status data) :: rest) name
          = (Except.error (.BadHTTPResponse status data), rest, [memberOfUrl cfg.tenant name])) ∧
    (∀ (cfg : AadConfig) (script : List GraphResp) (username groupname sid oid : String),
        (get_user_info cfg script username).2.2.length = 1 ∧
        (get_group_info cfg script groupname).2.2.length = 1 ∧
        (get_group_info_by_sid cfg script sid).2.2.length = 1 ∧
        (get_group_members cfg script oid).2.2.length = 1) := by
  refine ⟨?_, ?_, ?_, ?_, ?_⟩
  · intro cfg name status data rest hmk
    have hh := loop_log_head cfg rest (memberOfUrl cfg.tenant name) (5 - 1) []
    simp only [get_user_groups, get_user_groups_loop, hmk]
    have hcond : (true && decide (5 > 0)) = true := by decide
    rw [hcond, if_pos rfl]
    cases hI : (get_user_groups_loop cfg rest (memberOfUrl cfg.tenant name) (5 - 1) []).2.2 with
    | nil =>
      rw [hI] at hh
      simp at hh
    | cons a t =>
      rw [hI] at hh
      simp only [List.head?_cons, Option.some.injEq] at hh
      subst hh
      exact ⟨t, by simp [hI]⟩
  · intro cfg name status data p gs j hj hmk hp hnp
    exact loop_retry_succeeds cfg status data (memberOfUrl cfg.tenant name) hmk p gs hp hnp j 5 [] hj
  · intro cfg name status data rest hmk
    exact loop_retries_exhausted cfg status data (memberOfUrl cfg.tenant name) hmk 5 rest []
  · intro cfg name status data rest hmk
    exact loop_no_marker cfg status data (memberOfUrl cfg.tenant name) rest 5 [] hmk
  · intro cfg script username groupname sid oid
    refine ⟨?_, ?_, ?_, ?_⟩
    · cases script with
      | nil => rfl
      | cons x rest => cases x <;> rfl
    · cases script with
      | nil => rfl
      | cons x rest =>
        cases x with
        | error e => rfl
        | ok j =>
          simp only [get_group_info, get_graph_info]
          cases (j.getField "value").asArr with
          | none => rfl
          | some groups =>
            dsimp only
            split_ifs <;> rfl
    · cases script with
      | nil => rfl
      | cons x rest =>
        cases x with
        | error e => rfl
        | ok j =>
          simp only [get_group_info_by_sid, get_graph_info]
          cases (j.getField "value").asArr with
          | none => rfl
          | some groups =>
            dsimp only
            split_ifs <;> rfl
    · cases script with
      | nil => rfl
      | cons x rest => cases x <;> rfl

/-- An HTTP error body carrying the expired-page-token marker. -/
def expiredDataEx : String :=
  "Request_BadRequest Directory_ExpiredPageToken: the page token is expired"

/-- A single-group final page (no continuation link). -/
def lastPageEx : Json :=
  Json.obj [("value", Json.arr [groupJsonEx "g1" "o1" "S-1-5-21-1-2-3-5001"])]

/-- C3, witness: the retry protocol at concrete inputs — the retried URL
repeats, one expired response then success returns the page's records in 2
requests, 6 expired responses fail with 6 requests, a marker-less failure
propagates with 1 request, and a single-shot operation issues 1 request. -/
theorem C3_witness :
    (∃ t, (get_user_groups cfgEx
        (Except.error (.BadHTTPResponse 400 expiredDataEx) :: []) "u").2.2
      = memberOfUrl cfgEx.tenant "u" :: memberOfUrl cfgEx.tenant "u" :: t) ∧
    get_user_groups cfgEx
        [Except.error (.BadHTTPResponse 400 expiredDataEx), Except.ok lastPageEx] "u"
      = (Except.ok [{ groupname := "g1", object_id := "o1", group_id := 5001 }], [],
         List.replicate 2 (memberOfUrl cfgEx.tenant "u")) ∧
    get_user_groups cfgEx
        (List.replicate 6 (Except.error (.BadHTTPResponse 400 expiredDataEx)) ++ []) "u"
      = (Except.error (.BadHTTPResponse 400 expiredDataEx), [],
         List.replicate 6 (memberOfUrl cfgEx.tenant "u")) ∧
    get_user_groups cfgEx (Except.error (.BadHTTPResponse 500 "boom") :: []) "u"
      = (Except.error (.BadHTTPResponse 500 "boom"), [], [memberOfUrl cfgEx.tenant "u"]) ∧
    (get_user_info cfgEx [Except.ok lastPageEx] "u").2.2.length = 1 :=
  ⟨C3_retry_protocol.1 cfgEx "u" 400 expiredDataEx [] (by decide),
   C3_retry_protocol.2.1 cfgEx "u" 400 expiredDataEx lastPageEx
     [{ groupname := "g1", object_id := "o1", group_id := 5001 }] 1
     (by decide) (by decide) rfl rfl,
   C3_retry_protocol.2.2.1 cfgEx "u" 400 expiredDataEx [] (by decide),
   C3_retry_protocol.2.2.2.1 cfgEx "u" 500 "boom" [] (by decide),
   (C3_retry_protocol.2.2.2.2 cfgEx [Except.ok lastPageEx] "u" "g" "s" "o").1⟩

/-- C5: pagination of `get_user_groups`.  For any chained sequence of pages
(each middle page carrying a continuation link, the last page none), the
call returns the concatenation of every page's extracted records in page
order (within-page order is extraction order), requesting the member-of URL
first and then one next-page URL per continuation link. -/
theorem C5_pagination (cfg : AadConfig) (name : String)
    (pages : List (Json × List GroupInfo × String)) (lastPage : Json)
    (lastBatch : List GroupInfo)
    (hmid : ∀ x ∈ pages, extract_user_groups x.1 = Except.ok x.2.1 ∧
        has_another_page x.1 = Except.ok (some x.2.2))
    (hlast : extract_user_groups lastPage = Except.ok lastBatch)
    (hnolink : has_another_page lastPage = Except.ok none) :
    get_user_groups cfg ((pages.map (fun x => Except.ok x.1)) ++ [Except.ok lastPage]) name
      = (Except.ok ((pages.map (fun x => x.2.1)).flatten ++ lastBatch), [],
         memberOfUrl cfg.tenant name :: pages.map (fun x => nextPageUrl cfg.tenant x.2.2)) := by
  have h := loop_pages cfg lastPage lastBatch hlast hnolink pages hmid
    (memberOfUrl cfg.tenant name) 5 []
  simpa using h

/-- Three chained pages of two group records each: page 1 links to page 2,
page 2 to page 3, page 3 is final. -/
def pageEx1 : Json :=
  Json.obj [("value", Json.arr [groupJsonEx "g1" "o1" "S-1-5-21-1-2-3-5001",
                                groupJsonEx "g2" "o2" "S-1-5-21-1-2-3-5002"]),
            ("odata.nextLink", Json.str "p2")]

def pageEx2 : Json :=
  Json.obj [("value", Json.arr [groupJsonEx "g3" "o3" "S-1-5-21-1-2-3-5003",
                                groupJsonEx "g4" "o4" "S-1-5-21-1-2-3-5004"]),
            ("odata.nextLink", Json.str "p3")]

def pageEx3 : Json :=
  Json.obj [("value", Json.arr [groupJsonEx "g5" "o5" "S-1-5-21-1-2-3-5005",
                                groupJsonEx "g1" "o6" "S-1-5-21-1-2-3-5001"])]

/-- C5, witness: 3 pages of 2 records each, chained 1→2→3→end, return
exactly the 6 records in page order. -/
theorem C5_witness :
    get_user_groups cfgEx [Except.ok pageEx1, Except.ok pageEx2, Except.ok pageEx3] "u"
      = (Except.ok [{ groupname := "g1", object_id := "o1", group_id := 5001 },
                    { groupname := "g2", object_id := "o2", group_id := 5002 },
                    { groupname := "g3", object_id := "o3", group_id := 5003 },
                    { groupname := "g4", object_id := "o4", group_id := 5004 },
                    { groupname := "g5", object_id := "o5", group_id := 5005 },
                    { groupname := "g1", object_id := "o6", group_id := 5001 }], [],
         [memberOfUrl cfgEx.tenant "u", nextPageUrl cfgEx.tenant "p2",
          nextPageUrl cfgEx.tenant "p3"]) := by
  have h := C5_pagination cfgEx "u"
    [(pageEx1, [{ groupname := "g1", object_id := "o1", group_id := 5001 },
                { groupname := "g2", object_id := "o2", group_id := 5002 }], "p2"),
     (pageEx2, [{ groupname := "g3", object_id := "o3", group_id := 5003 },
                { groupname := "g4", object_id := "o4", group_id := 5004 }], "p3")]
    pageEx3
    [{ groupname := "g5", object_id := "o5", group_id := 5005 },
     { groupname := "g1", object_id := "o6", group_id := 5001 }]
    (by
      intro x hx
      simp only [List.mem_cons, List.mem_singleton] at hx
      rcases hx with h | h | h
      · subst h
        exact ⟨rfl, rfl⟩
      · subst h
        exact ⟨rfl, rfl⟩
      · cases h)
    rfl rfl
  simpa using h

/-- C6: cardinality rules of the group queries.  For both `get_group_info`
(by name) and `get_group_info_by_sid`, a response whose `value` array has
zero elements yields `NotFound`, more than one element yields
`TooManyResults`, and exactly one element yields that record's extracted
`GroupInfo`. -/
theorem C6_group_query_cardinality (cfg : AadConfig) (rest : List GraphResp)
    (name sid : String) (j : Json) (vs : List Json)
    (hv : (j.getField "value").asArr = some vs) :
    (vs = [] →
      (get_group_info cfg (Except.ok j :: rest) name).1 =
        Except.error GraphInfoRetrievalError.NotFound ∧
      (get_group_info_by_sid cfg (Except.ok j :: rest) sid).1 =
        Except.error GraphInfoRetrievalError.NotFound) ∧
    (1 < vs.length →
      (get_group_info cfg (Except.ok j :: rest) name).1 =
        Except.error GraphInfoRetrievalError.TooManyResults ∧
      (get_group_info_by_sid cfg (Except.ok j :: rest) sid).1 =
        Except.error GraphInfoRetrievalError.TooManyResults) ∧
    (∀ v, vs = [v] →
      (get_group_info cfg (Except.ok j :: rest) name).1 = extract_group_info v ∧
      (get_group_info_by_sid cfg (Except.ok j :: rest) sid).1 = extract_group_info v) := by
  refine ⟨?_, ?_, ?_⟩
  · rintro rfl
    constructor <;>
      · simp only [get_group_info, get_group_info_by_sid, get_graph_info, hv]
        rfl
  · intro hlen
    constructor <;>
      · simp only [get_group_info, get_group_info_by_sid, get_graph_info, hv]
        rw [if_pos hlen]
  · rintro v rfl
    constructor <;>
      · simp only [get_group_info, get_group_info_by_sid, get_graph_info, hv]
        rfl

/-- An empty result page, and a two-group result page. -/
def emptyValuePage : Json := Json.obj [("value", Json.arr [])]

def twoGroupPage : Json :=
  Json.obj [("value", Json.arr [groupJsonEx "g1" "o1" "S-1-5-21-1-2-3-5001",
                                groupJsonEx "g2" "o2" "S-1-5-21-1-2-3-5002"])]

/-- A one-group result page. -/
def oneGroupPage : Json :=
  Json.obj [("value", Json.arr [groupJsonEx "g1" "o1" "S-1-5-21-1-2-3-5001"])]

/-- C6, witness: 0 matches yield `NotFound`, 2 matches yield
`TooManyResults`, and exactly 1 match yields the extracted record, for both
query flavours. -/
theorem C6_witness :
    (get_group_info cfgEx [Except.ok emptyValuePage] "g1").1 =
      Except.error GraphInfoRetrievalError.NotFound ∧
    (get_group_info_by_sid cfgEx [Except.ok emptyValuePage] "s").1 =
      Except.error GraphInfoRetrievalError.NotFound ∧
    (get_group_info cfgEx [Except.ok twoGroupPage] "g1").1 =
      Except.error GraphInfoRetrievalError.TooManyResults ∧
    (get_group_info_by_sid cfgEx [Except.ok twoGroupPage] "s").1 =
      Except.error GraphInfoRetrievalError.TooManyResults ∧
    (get_group_info cfgEx [Except.ok oneGroupPage] "g1").1 =
      Except.ok { groupname := "g1", object_id := "o1", group_id := 5001 } ∧
    (get_group_info_by_sid cfgEx [Except.ok oneGroupPage] "s").1 =
      Except.ok { groupname := "g1", object_id := "o1", group_id := 5001 } := by
  have h0 := C6_group_query_cardinality cfgEx [] "g1" "s" emptyValuePage [] rfl
  have h2 := C6_group_query_cardinality cfgEx [] "g1" "s" twoGroupPage
    [groupJsonEx "g1" "o1" "S-1-5-21-1-2-3-5001",
     groupJsonEx "g2" "o2" "S-1-5-21-1-2-3-5002"] rfl
  have h1 := C6_group_query_cardinality cfgEx [] "g1" "s" oneGroupPage
    [groupJsonEx "g1" "o1" "S-1-5-21-1-2-3-5001"] rfl
  obtain ⟨ha, hb⟩ := h0.1 rfl
  obtain ⟨hc, hd⟩ := h2.2.1 (by decide)
  obtain ⟨he, hf⟩ := h1.2.2 (groupJsonEx "g1" "o1" "S-1-5-21-1-2-3-5001") rfl
  refine ⟨ha, hb, hc, hd, ?_, ?_⟩
  · rw [he]
    rfl
  · rw [hf]
    rfl

/-- C7: per-record failures in membership listings are dropped silently.
(1)–(2) `extract_group_members` and (per page) `extract_user_groups` return
the in-order `Ok` payloads of per-record extraction over the `value` array,
never failing the whole call because a single record fails; (3)–(4) when
the array splits as `pre ++ v :: post` with the extraction of `v` failing,
the result is exactly the kept records of `pre` followed by those of
`post`, in order, with `v` omitted. -/
theorem C7_per_record_failures_dropped (j : Json) (vs : List Json)
    (hv : (j.getField "value").asArr = some vs) :
    extract_group_members j = Except.ok (collectOks (vs.map extract_user_info)) ∧
    extract_user_groups j = Except.ok (collectOks (vs.map extract_group_info)) ∧
    (∀ (pre : List Json) (v : Json) (post : List Json), vs = pre ++ v :: post →
        (extract_user_info v).isOk = false →
        collectOks (vs.map extract_user_info)
          = collectOks (pre.map extract_user_info) ++ collectOks (post.map extract_user_info)) ∧
    (∀ (pre : List Json) (v : Json) (post : List Json), vs = pre ++ v :: post →
        (extract_group_info v).isOk = false →
        collectOks (vs.map extract_group_info)
          = collectOks (pre.map extract_group_info) ++ collectOks (post.map extract_group_info)) := by
  have hJ : j.getField "value" = Json.arr vs := by
    cases hjv : j.getField "value" <;> rw [hjv] at hv <;>
      simp only [Json.asArr, Option.some.injEq, reduceCtorEq] at hv
    rw [hv]
  refine ⟨?_, ?_, ?_, ?_⟩
  · simp only [extract_group_members, hJ, Json.asArr]
    rfl
  · simp only [extract_user_groups, hJ, Json.isNull, Json.asArr]
    rfl
  · rintro pre v post rfl hfail
    rw [List.map_append, collectOks_append, List.map_cons]
    cases hx : extract_user_info v with
    | ok u =>
      rw [hx] at hfail
      simp [Except.isOk, Except.toBool] at hfail
    | error e =>
      simp [collectOks]
  · rintro pre v post rfl hfail
    rw [List.map_append, collectOks_append, List.map_cons]
    cases hx : extract_group_info v with
    | ok g =>
      rw [hx] at hfail
      simp [Except.isOk, Except.toBool] at hfail
    | error e =>
      simp [collectOks]

/-- A well-formed directory user object. -/
def userJsonEx (upn disp sid : String) : Json :=
  Json.obj [("userPrincipalName", Json.str upn), ("displayName", Json.str disp),
            ("onPremisesSecurityIdentifier", Json.str sid)]

/-- A members page whose middle record has the unusable RID 500. -/
def mixedMembersPage : Json :=
  Json.obj [("value", Json.arr
    [userJsonEx "u1" "U One" "S-1-5-21-1-2-3-1001",
     builtinUserJson,
     userJsonEx "u2" "U Two" "S-1-5-21-1-2-3-1002"])]

/-- C7, witness: the bad middle record is dropped, the two good ones are
kept in order, and the whole call succeeds. -/
theorem C7_witness :
    extract_group_members mixedMembersPage =
      Except.ok [{ username := "u1", fullname := "U One", userid := 1001 },
                 { username := "u2", fullname := "U Two", userid := 1002 }] ∧
    collectOks (([userJsonEx "u1" "U One" "S-1-5-21-1-2-3-1001", builtinUserJson,
                  userJsonEx "u2" "U Two" "S-1-5-21-1-2-3-1002"]).map extract_user_info)
      = collectOks ([userJsonEx "u1" "U One" "S-1-5-21-1-2-3-1001"].map extract_user_info) ++
        collectOks ([userJsonEx "u2" "U Two" "S-1-5-21-1-2-3-1002"].map extract_user_info) := by
  have h := C7_per_record_failures_dropped mixedMembersPage
    [userJsonEx "u1" "U One" "S-1-5-21-1-2-3-1001", builtinUserJson,
     userJsonEx "u2" "U Two" "S-1-5-21-1-2-3-1002"] rfl
  refine ⟨?_, h.2.2.1 [userJsonEx "u1" "U One" "S-1-5-21-1-2-3-1001"] builtinUserJson
    [userJsonEx "u2" "U Two" "S-1-5-21-1-2-3-1002"] rfl rfl⟩
  rw [h.1]
  rfl

theorem reallocGids_length (arr : List Nat) (n : Nat) : (reallocGids arr n).length = n := by
  simp [reallocGids]
  omega

/-- C8: initgroups growth and truncation.  When the qualifying gids `q`
(groups found in the config allow-list, minus the skip gid) would overflow
the current array, the array is grown to `min (start + q.length) limit`
entries, gids are written in order from the fill position, writing stops at
the `limit` ceiling (silently truncating the rest), the call still returns
Success, and the returned fill position advances exactly by the number of
gids written (`min q.length (limit - start)`). -/
theorem C8_truncation (cfg : AadConfig) (script : List GraphResp) (name : String)
    (v : List GroupInfo) (rest : List GraphResp) (log : List String)
    (skipgroup start limit : Nat) (grouparr : List Nat)
    (hg : get_user_groups cfg script name = (Except.ok v, rest, log)) :
    ∀ q, q = (v.filterMap (fun g => cfg.lookupGid g.groupname)).filter
        (fun gid => gid ≠ skipgroup) →
    q ≠ [] → grouparr.length < start + q.length → start ≤ grouparr.length → start < limit →
    _nss_aad_initgroups_dyn (some cfg) script (some name) skipgroup start grouparr limit =
      some { ret := nss_success, start := min (start + q.length) limit,
             groups := grouparr.take start ++ q.take (min (start + q.length) limit - start),
             requests := log } ∧
    min (start + q.length) limit - start = min q.length (limit - start) := by
  intro q hqdef hq hgrow hstart hlim
  have hq1 : 1 ≤ q.length := by
    cases q with
    | nil => exact absurd rfl hq
    | cons a t => simp
  refine ⟨?_, by omega⟩
  simp only [_nss_aad_initgroups_dyn, hg]
  rw [← hqdef]
  have hempty : q.isEmpty = false := by
    cases q with
    | nil => exact absurd rfl hq
    | cons a t => rfl
  rw [hempty]
  simp only [Bool.false_eq_true, if_false]
  rw [if_pos (by omega)]
  have harr : (reallocGids grouparr (min (start + q.length) limit)).length
      = min (start + q.length) limit := reallocGids_length _ _
  rw [writeGidsLoop_spec q _ start limit (by rw [harr]; omega) (by rw [harr]) (Or.inr hlim)]
  rw [harr]
  have htake : (reallocGids grouparr (min (start + q.length) limit)).take start
      = grouparr.take start := by
    simp only [reallocGids]
    rw [List.take_append_of_le_length]
    · rw [List.take_take]
      congr 1
      omega
    · rw [List.length_take]
      omega
  rw [htake]

/-- A single page listing the five configured groups. -/
def fiveGroupPage : Json :=
  Json.obj [("value", Json.arr
    [groupJsonEx "g1" "o1" "S-1-5-21-1-2-3-5001",
     groupJsonEx "g2" "o2" "S-1-5-21-1-2-3-5002",
     groupJsonEx "g3" "o3" "S-1-5-21-1-2-3-5003",
     groupJsonEx "g4" "o4" "S-1-5-21-1-2-3-5004",
     groupJsonEx "g5" "o5" "S-1-5-21-1-2-3-5005"])]

/-- C8, witness: capacity 2, ceiling 3, 5 qualifying groups — exactly 3 gids
are written and the returned fill position is 3, with Success. -/
theorem C8_witness :
    _nss_aad_initgroups_dyn (some cfgEx) [Except.ok fiveGroupPage] (some "u") 0 0 [9, 9] 3 =
      some { ret := nss_success, start := 3, groups := [5001, 5002, 5003],
             requests := [memberOfUrl cfgEx.tenant "u"] } := by
  have h := (C8_truncation cfgEx [Except.ok fiveGroupPage] "u"
    [{ groupname := "g1", object_id := "o1", group_id := 5001 },
     { groupname := "g2", object_id := "o2", group_id := 5002 },
     { groupname := "g3", object_id := "o3", group_id := 5003 },
     { groupname := "g4", object_id := "o4", group_id := 5004 },
     { groupname := "g5", object_id := "o5", group_id := 5005 }]
    [] [memberOfUrl cfgEx.tenant "u"] 0 0 3 [9, 9] rfl
    [5001, 5002, 5003, 5004, 5005] rfl
    (by decide) (by decide) (by decide) (by decide)).1
  exact h

/-- C4: packing the alice record into any sufficiently large buffer (38
bytes required) succeeds, and the five passwd fields read back, as
NUL-terminated byte strings inside the buffer, as "alice", ".",
"/home/alice", "Alice A" and "/bin/bash" respectively. -/
theorem C4_alice_roundtrip (buffer : List Nat) (h : 38 ≤ buffer.length) :
    ∃ buf', fill_passwd_buf false false buffer "alice" "Alice A" =
        (Except.ok { pw_name := 0, pw_passwd := 6, pw_gecos := 8, pw_shell := 16,
                     pw_dir := 26 }, buf') ∧
      readCStr buf' 0 = strBytes "alice" ∧
      readCStr buf' 6 = strBytes "." ∧
      readCStr buf' 26 = strBytes "/home/alice" ∧
      readCStr buf' 8 = strBytes "Alice A" ∧
      readCStr buf' 16 = strBytes "/bin/bash" := by
  have key : fill_passwd_buf false false buffer "alice" "Alice A" =
      (Except.ok { pw_name := 0, pw_passwd := 6, pw_gecos := 8, pw_shell := 16, pw_dir := 26 },
        [97, 108, 105, 99, 101, 0, 46, 0, 65, 108, 105, 99, 101, 32, 65, 0,
         47, 98, 105, 110, 47, 98, 97, 115, 104, 0,
         47, 104, 111, 109, 101, 47, 97, 108, 105, 99, 101, 0] ++
          ((((buffer.drop 6).drop 2).drop 8).drop 10).drop 12) := by
    have hne : (buffer.length == 0) = false := by
      simp only [beq_eq_false_iff_ne, ne_eq]
      omega
    have hcap : ¬ (buffer.length < 38) := by omega
    simp only [fill_passwd_buf]
    rw [hne]
    show (if buffer.length < 38 then (Except.error BufferFillError.InsufficientBuffer, buffer)
          else _) = _
    rw [if_neg hcap]
    rfl
  exact ⟨_, key, rfl, rfl, rfl, rfl, rfl⟩

/-- C4, witness: the round trip at a concrete 40-byte buffer. -/
theorem C4_witness :
    ∃ buf', fill_passwd_buf false false (List.replicate 40 7) "alice" "Alice A" =
        (Except.ok { pw_name := 0, pw_passwd := 6, pw_gecos := 8, pw_shell := 16,
                     pw_dir := 26 }, buf') ∧
      readCStr buf' 0 = strBytes "alice" ∧
      readCStr buf' 6 = strBytes "." ∧
      readCStr buf' 26 = strBytes "/home/alice" ∧
      readCStr buf' 8 = strBytes "Alice A" ∧
      readCStr buf' 16 = strBytes "/bin/bash" :=
  C4_alice_roundtrip (List.replicate 40 7) (by decide)

/-- C10: when the group itself resolves but the subsequent group-members
fetch fails with any error, both group entry points swallow the error: the
group is packed with an empty member list (`gr_mem` is just the null
terminator) and the call returns Success, errno untouched. -/
theorem C10_member_fetch_error_swallowed :
    (∀ (cfg : AadConfig) (script rest rest2 : List GraphResp) (name : String) (gi : GroupInfo)
        (e : GraphInfoRetrievalError) (log1 log2 : List String) (buffer : List Nat),
      get_group_info cfg script name = (Except.ok gi, rest, log1) →
      get_group_members cfg rest gi.object_id = (Except.error e, rest2, log2) →
      0 ∉ strBytes name →
      (strBytes name).length + 3 ≤ buffer.length →
      _nss_aad_getgrnam_r (some cfg) script (some name) buffer =
        some { ret := nss_success,
               packed := some { gr_name := 0, gr_passwd := (strBytes name).length + 1,
                                gr_gid := gi.group_id, gr_mem := [none] },
               buffer := (strBytes name ++ [0]) ++
                 ((strBytes "!" ++ [0]) ++ (buffer.drop ((strBytes name).length + 1)).drop 2),
               requests := log1 ++ log2 }) ∧
    (∀ (cfg : AadConfig) (script rest rest2 : List GraphResp) (gid : Nat) (gi : GroupInfo)
        (e : GraphInfoRetrievalError) (log1 log2 : List String) (buffer : List Nat),
      1000 ≤ gid →
      get_group_info_by_sid cfg script (cfg.domain_sid ++ "-" ++ toString gid) =
        (Except.ok gi, rest, log1) →
      get_group_members cfg rest gi.object_id = (Except.error e, rest2, log2) →
      0 ∉ strBytes gi.groupname →
      (strBytes gi.groupname).length + 3 ≤ buffer.length →
      _nss_aad_getgrgid_r (some cfg) script gid buffer =
        some { ret := nss_success,
               packed := some { gr_name := 0, gr_passwd := (strBytes gi.groupname).length + 1,
                                gr_gid := gid, gr_mem := [none] },
               buffer := (strBytes gi.groupname ++ [0]) ++
                 ((strBytes "!" ++ [0]) ++
                   (buffer.drop ((strBytes gi.groupname).length + 1)).drop 2),
               requests := log1 ++ log2 }) := by
  constructor
  · intro cfg script rest rest2 name gi e log1 log2 buffer hgi hmem hn hcap
    simp only [_nss_aad_getgrnam_r, hgi, hmem]
    rw [fill_group_buf_emptyMembers buffer gi.group_id name hn hcap]
  · intro cfg script rest rest2 gid gi e log1 log2 buffer hgid hgi hmem hn hcap
    simp only [_nss_aad_getgrgid_r]
    rw [if_neg (by omega)]
    simp only [hgi, hmem]
    rw [fill_group_buf_emptyMembers buffer gid gi.groupname hn hcap]

/-- C10, witness: a resolving group followed by a failing members fetch
(transport error) still packs the group with `gr_mem = [none]` and returns
Success, for both entry points. -/
theorem C10_witness :
    _nss_aad_getgrnam_r (some cfgEx)
        [Except.ok oneGroupPage, Except.error GraphInfoRetrievalError.HTTPError]
        (some "g1") (List.replicate 20 7) =
      some { ret := nss_success,
             packed := some { gr_name := 0, gr_passwd := (strBytes "g1").length + 1,
                              gr_gid := 5001, gr_mem := [none] },
             buffer := (strBytes "g1" ++ [0]) ++
               ((strBytes "!" ++ [0]) ++
                 (((List.replicate 20 7).drop ((strBytes "g1").length + 1)).drop 2)),
             requests := [groupByNameUrl cfgEx.tenant "g1"] ++
               [groupMembersUrl cfgEx.tenant "o1"] } ∧
    _nss_aad_getgrgid_r (some cfgEx)
        [Except.ok oneGroupPage, Except.error GraphInfoRetrievalError.HTTPError]
        5001 (List.replicate 20 7) =
      some { ret := nss_success,
             packed := some { gr_name := 0, gr_passwd := (strBytes "g1").length + 1,
                              gr_gid := 5001, gr_mem := [none] },
             buffer := (strBytes "g1" ++ [0]) ++
               ((strBytes "!" ++ [0]) ++
                 (((List.replicate 20 7).drop ((strBytes "g1").length + 1)).drop 2)),
             requests := [groupBySidUrl cfgEx.tenant (cfgEx.domain_sid ++ "-" ++ toString 5001)] ++
               [groupMembersUrl cfgEx.tenant "o1"] } :=
  ⟨C10_member_fetch_error_swallowed.1 cfgEx
      [Except.ok oneGroupPage, Except.error GraphInfoRetrievalError.HTTPError] 
      [Except.error GraphInfoRetrievalError.HTTPError] []
      "g1" { groupname := "g1", object_id := "o1", group_id := 5001 }
      GraphInfoRetrievalError.HTTPError [groupByNameUrl cfgEx.tenant "g1"]
      [groupMembersUrl cfgEx.tenant "o1"]
      (List.replicate 20 7) rfl rfl (by decide) (by decide),
   C10_member_fetch_error_swallowed.2 cfgEx
      [Except.ok oneGroupPage, Except.error GraphInfoRetrievalError.HTTPError]
      [Except.error GraphInfoRetrievalError.HTTPError] []
      5001 { groupname := "g1", object_id := "o1", group_id := 5001 }
      GraphInfoRetrievalError.HTTPError
      [groupBySidUrl cfgEx.tenant (cfgEx.domain_sid ++ "-" ++ toString 5001)]
      [groupMembersUrl cfgEx.tenant "o1"]
      (List.replicate 20 7) (by decide) rfl rfl (by decide) (by decide)⟩
